import Mathlib

/-!
Verification of the ArmourEye Vulnerability Retrieval & Correlation Engine
(`backend/ai/inference/server.py`, with the divergent variant in
`backend/ai/simple_rag_server.py`).

The Python source is shallowly embedded: document metadata and runtime
scanner input become Lean structures, each engine function becomes an
executable Lean definition with the same branch structure, and paths where
the Python code can raise are modelled with `Except`.
-/

/-- The stored (JSON-string) encoding of an exploit/fix link list, abstracted
to whether `json.loads` succeeds.  `valid links` stands for a string that
decodes to that list; `invalid` stands for a string on which `json.loads`
raises. -/
inductive EncodedLinks where
  | valid (links : List String)
  | invalid
deriving DecidableEq

/-- `json.loads(metadata.get("exploits_json", "[]"))` with the
`except: exploits = []` recovery: an absent key defaults to the encoding of
the empty list, and a decode failure yields `[]` without dropping the
record. -/
def decodeLinks : Option EncodedLinks → List String
  | none => []
  | some (.valid links) => links
  | some .invalid => []

/-- Metadata of one raw candidate document returned by the vector store
(`doc.metadata`; an absent key is `none`). -/
structure DocMeta where
  package_name : Option String
  package_version : Option String
  cve_id : Option String
  severity : Option String
  cvss : Option String
  description : Option String
  exploits_json : Option EncodedLinks
  fixes_json : Option EncodedLinks
deriving DecidableEq

/-- One normalized vulnerability record produced by `_format_docs`. -/
structure VulnRecord where
  cve_id : String
  severity : Option String
  cvss : Option String
  description : Option String
  exploits : List String
  fixes : List String
deriving DecidableEq

/-- Loop of `_format_docs` (server.py lines 70-103): iterate documents in
order, keeping a `seen_cves` accumulator; skip a document whose `cve_id` is
missing, empty (Python falsiness of `not cve_id`), the `"N/A"` sentinel, or
already seen. -/
def format_docs_aux : List DocMeta → List String → List VulnRecord
  | [], _ => []
  | d :: ds, seen =>
    match d.cve_id with
    | none => format_docs_aux ds seen
    | some c =>
      if c == "" || c == "N/A" || seen.contains c then
        format_docs_aux ds seen
      else
        { cve_id := c, severity := d.severity, cvss := d.cvss,
          description := d.description,
          exploits := decodeLinks d.exploits_json,
          fixes := decodeLinks d.fixes_json } :: format_docs_aux ds (c :: seen)

/-- `_format_docs(docs)`: prepare retrieved vulnerability documents and
deduplicate by CVE (identical in server.py and simple_rag_server.py). -/
def format_docs (docs : List DocMeta) : List VulnRecord :=
  format_docs_aux docs []

/-- The usable (present, non-empty, non-sentinel) `cve_id` values of a
document list, in input order (duplicates kept). -/
def validCveIds (docs : List DocMeta) : List String :=
  docs.filterMap (fun d =>
    match d.cve_id with
    | none => none
    | some c => if c == "" || c == "N/A" then none else some c)

/-- Keep the first occurrence of each element of a list, preserving order. -/
def firstSeen : List String → List String
  | [] => []
  | c :: cs => c :: (firstSeen cs).filter (fun x => !(x == c))

/-- `firstSeen` with an explicit already-seen accumulator, mirroring the
`seen_cves` set of the Python loop. -/
def firstSeenA : List String → List String → List String
  | [], _ => []
  | c :: cs, seen =>
    if seen.contains c then firstSeenA cs seen
    else c :: firstSeenA cs (c :: seen)

/-- The `open_ports` value inside the runtime scanner input.  The field is
typed `Any` on the wire, so alongside a genuine list a client can supply a
non-iterable value; iterating over it in Python raises, which the embedding
surfaces through the `notIterable` constructor. -/
inductive PyPorts where
  | ports (l : List Int)
  | notIterable
deriving DecidableEq

/-- The `network` entry of the runtime scanner input: `open_ports` plus the
`services` table mapping a port (as a string) to its announced service
name.  `none` means the key is absent, in which case the Python `.get`
defaults apply. -/
structure NetworkInfo where
  open_ports : Option PyPorts
  services : Option (List (String × String))
deriving DecidableEq

/-- The runtime scanner input dictionary (all keys optional). -/
structure RuntimeData where
  network : Option NetworkInfo
  web_vulnerabilities : Option (List String)
  database_issues : Option (List String)
  auth_weaknesses : Option (List String)
deriving DecidableEq

/-- The exposure profile built by `_build_runtime_context`. -/
structure ExposureContext where
  is_exposed : Bool
  exposed_ports : List Int
  exposed_services : List String
  web_vulnerabilities : List String
  database_issues : List String
  auth_weaknesses : List String
  exploitable_vulnerabilities : List String
deriving DecidableEq

/-- `services.get(str(port), dflt)` on the service table. -/
def serviceFor (services : List (String × String)) (port : Int) (dflt : String) : String :=
  match services.lookup (toString port) with
  | some s => s
  | none => dflt

/-- Python `str.lower()`, written over the character list so that it
evaluates inside the kernel. -/
def pyLower (s : String) : String :=
  ⟨s.data.map Char.toLower⟩

/-- `str(services.get(str(port), "")).lower() in {"http", "https", "http-proxy"}`. -/
def isWebPort (services : List (String × String)) (port : Int) : Bool :=
  let s := pyLower (serviceFor services port "")
  s == "http" || s == "https" || s == "http-proxy"

/-- `_build_runtime_context(runtime_data)` (server.py lines 106-135).
A missing context is replaced by the empty dictionary; iterating a
non-iterable `open_ports` value raises, modelled as `.error ()`. -/
def build_runtime_context (runtime_data : Option RuntimeData) :
    Except Unit ExposureContext :=
  let rd := runtime_data.getD
    { network := none, web_vulnerabilities := none,
      database_issues := none, auth_weaknesses := none }
  let network_info := rd.network.getD { open_ports := none, services := none }
  let services := network_info.services.getD []
  match network_info.open_ports.getD (.ports []) with
  | .notIterable => .error ()
  | .ports open_ports =>
    let context : ExposureContext :=
      { is_exposed := false, exposed_ports := [], exposed_services := [],
        web_vulnerabilities := rd.web_vulnerabilities.getD [],
        database_issues := rd.database_issues.getD [],
        auth_weaknesses := rd.auth_weaknesses.getD [],
        exploitable_vulnerabilities := [] }
    let web_ports := open_ports.filter (isWebPort services)
    if web_ports.isEmpty then .ok context
    else .ok { context with
      is_exposed := true,
      exposed_ports := web_ports,
      exposed_services := web_ports.map (fun port => serviceFor services port "unknown") }

/-- Ascending insertion of a string into a sorted list. -/
def insertSorted (s : String) : List String → List String
  | [] => [s]
  | t :: ts => if s ≤ t then s :: t :: ts else t :: insertSorted s ts

/-- Ascending insertion sort on strings (Python `sorted` on strings). -/
def sortStrings : List String → List String
  | [] => []
  | s :: ss => insertSorted s (sortStrings ss)

/-- `sorted({...})` on a set of strings: distinct values, ascending. -/
def sortedSet (l : List String) : List String :=
  sortStrings (firstSeen l)

/-- `{item.get("severity", "UNKNOWN") for item in context_list if item.get("severity")}`:
the truthy (present and non-empty) severity values. -/
def truthySeverities (context_list : List VulnRecord) : List String :=
  context_list.filterMap (fun vr =>
    match vr.severity with
    | none => none
    | some s => if s == "" then none else some s)

/-- Outcome of the status-classification branch of `_build_report`
(server.py lines 148-166). -/
structure Classified where
  status : String
  severities : List String
  vuln_count : Nat
  context_list : List VulnRecord
  docs_count : Nat
deriving DecidableEq

/-- The status-classification branch of `_build_report`: broad-search or
non-exact results are discarded (UNKNOWN); otherwise the clean sentinel
(`cve_id == "N/A"`) wins, else VULNERABLE. -/
def classifyDocs (docs : List DocMeta) (is_exact_match : Bool)
    (context_list : List VulnRecord) : Classified :=
  if docs.isEmpty || !is_exact_match then
    { status := "UNKNOWN", severities := [], vuln_count := 0,
      context_list := [], docs_count := 0 }
  else
    match docs.find? (fun d => d.cve_id == some "N/A") with
    | some _ =>
      { status := "CLEAN", severities := [], vuln_count := 0,
        context_list := context_list, docs_count := docs.length }
    | none =>
      { status := "VULNERABLE",
        severities := sortedSet (truthySeverities context_list),
        vuln_count := context_list.length,
        context_list := context_list, docs_count := docs.length }

/-- The friendly-summary templates of `_build_report`
(server.py lines 175-185). -/
def summary_text (package version : String) (c : Classified)
    (exploitable_vulns : List String) : String :=
  if c.status == "CLEAN" then
    s!"Good news! {package}@{version} looks safe — no known vulnerabilities found."
  else if c.status == "VULNERABLE" then
    let sevJoin := String.intercalate ", " c.severities
    let sev_text := if c.severities.isEmpty then "" else s!" ({sevJoin} severity)"
    let exploit_text :=
      if exploitable_vulns.isEmpty then ""
      else
        let n := exploitable_vulns.length
        s!" ⚠️ {n} could be exploited since ports are exposed."
    let plural := if c.vuln_count != 1 then "s" else ""
    let vc := c.vuln_count
    s!"{package}@{version} has {vc} known issue{plural}{sev_text}.{exploit_text} Consider updating to a patched version."
  else
    s!"{package}@{version} wasn\u0027t found in our vulnerability database. This is likely a system package or internal dependency."

/-- The verdict dictionary returned by `_build_report`. -/
structure Report where
  package : String
  version : String
  status : String
  retrieved_docs_count : Nat
  unique_vuln_count : Nat
  severities_found : List String
  all_vulnerabilities : List VulnRecord
  runtime_exposure : ExposureContext
  exploitable_count : Nat
  report_summary_text : String
  found_in_database : Bool
deriving DecidableEq

/-- The `exploitable_vulns` computation of `_build_report` (server.py lines
167-173): the CRITICAL/HIGH cve ids of the (post-branch) normalized list,
computed only when the exposure profile says exposed and the list is
non-empty. -/
def exploitableOf (rc : ExposureContext) (context_list : List VulnRecord) : List String :=
  if rc.is_exposed && !context_list.isEmpty then
    (context_list.filter (fun vr =>
      vr.severity == some "CRITICAL" || vr.severity == some "HIGH")).map VulnRecord.cve_id
  else []

/-- `_build_report(package, version, docs, runtime_data, is_exact_match)`
(server.py lines 138-199).  The only raising step is
`_build_runtime_context` on a malformed runtime context. -/
def build_report (package version : String) (docs : List DocMeta)
    (runtime_data : Option RuntimeData) (is_exact_match : Bool) :
    Except Unit Report :=
  let c := classifyDocs docs is_exact_match (format_docs docs)
  match build_runtime_context runtime_data with
  | .error e => .error e
  | .ok rc =>
    let exploitable_vulns := exploitableOf rc c.context_list
    let runtime_context := { rc with exploitable_vulnerabilities := exploitable_vulns }
    .ok {
      package := package, version := version, status := c.status,
      retrieved_docs_count := if is_exact_match then c.docs_count else 0,
      unique_vuln_count := c.vuln_count,
      severities_found := c.severities,
      all_vulnerabilities := c.context_list,
      runtime_exposure := runtime_context,
      exploitable_count := exploitable_vulns.length,
      report_summary_text := summary_text package version c exploitable_vulns,
      found_in_database := is_exact_match }

/-- A query issued to the similarity-search backend: a metadata-filtered
search (the filter is the list of equality conditions of the Chroma filter
dictionary) or the broad, filter-less search of the simpler deployment
profile. -/
inductive SearchQuery where
  | filtered (query : String) (conditions : List (String × String)) (k : Nat)
  | broad (query : String) (k : Nat)
deriving DecidableEq

/-- The similarity-search backend (`self._store.similarity_search`): it
returns candidate documents or raises (`.error`). -/
def Backend : Type := SearchQuery → Except Unit (List DocMeta)

/-- The tier-1 filter `{"$and": [{"package_name": n}, {"package_version": v}]}`. -/
def exactFilter (query n v : String) (k : Nat) : SearchQuery :=
  .filtered query [("package_name", n), ("package_version", v)] k

/-- The tier-2 filter `{"package_name": n}`. -/
def nameOnlyFilter (query n : String) (k : Nat) : SearchQuery :=
  .filtered query [("package_name", n)] k

/-- The re-verification step `[doc for doc in docs if
getattr(doc, "metadata", {}).get("package_name") == package_name]`. -/
def verify (package_name : String) (docs : List DocMeta) : List DocMeta :=
  docs.filter (fun d => d.package_name == some package_name)

/-- `VectorStoreService.similarity_search` of the inference server
(server.py lines 236-288).  `store = none` models an unavailable vector
store.  A single `try` wraps both tiers, so any backend error ends the
whole call with `([], False)`. -/
def similarity_search (store : Option Backend) (query : String)
    (package_name package_version : String) (k : Nat := 100) :
    List DocMeta × Bool :=
  match store with
  | none => ([], false)
  | some backend =>
    match backend (exactFilter query package_name package_version k) with
    | .error _ => ([], false)
    | .ok docs =>
      if !(verify package_name docs).isEmpty then (verify package_name docs, true)
      else
        match backend (nameOnlyFilter query package_name k) with
        | .error _ => ([], false)
        | .ok docs2 =>
          if !(verify package_name docs2).isEmpty then (verify package_name docs2, true)
          else ([], false)

/-- `VectorStoreService.similarity_search` of the simpler deployment
profile (simple_rag_server.py lines 128-205): three tiers, each with its
own `try`/`except` treating an error as zero results for that tier; no
re-verification of the returned documents and no exact-match flag. -/
def similarity_search_simple (store : Option Backend) (query : String)
    (package_name package_version : String) (k : Nat := 100) :
    List DocMeta :=
  match store with
  | none => []
  | some backend =>
    let d1 := match backend (exactFilter query package_name package_version k) with
      | .ok docs => docs
      | .error _ => []
    if !d1.isEmpty then d1
    else
      let d2 := match backend (nameOnlyFilter query package_name k) with
        | .ok docs => docs
        | .error _ => []
      if !d2.isEmpty then d2
      else
        match backend (.broad (package_name ++ " " ++ package_version) (min 5 k)) with
        | .ok docs => docs
        | .error _ => []

/-- Outcome of one call to the text-generation pipeline inside
`LocalLLM.invoke`: the pipeline is missing or disabled, the generation
raised, or it produced (already prompt-stripped) text. -/
inductive LLMOutcome where
  | notLoaded
  | raised
  | generated (text : String)
deriving DecidableEq

/-- `LocalLLM.invoke(prompt)` (server.py lines 361-371): sentinel strings
for the unavailable and failing cases, text otherwise. -/
def invoke (outcome : LLMOutcome) : String :=
  match outcome with
  | .notLoaded => "LLM unavailable"
  | .raised => "LLM invocation failed"
  | .generated text => text

/-- The caller-side narrative selection in `analyze_packages`
(server.py lines 497-502): keep the LLM output only when it is truthy and
not the `"LLM unavailable"` sentinel, otherwise keep the deterministic
summary. -/
def chooseLlmSummary (summaryText llmOutput : String) : String :=
  if !(llmOutput == "") && !(llmOutput == "LLM unavailable") then llmOutput
  else summaryText

/-- One entry of the batch request (`PackageInput`); `runtime_context`
fields left unset by the client are `none` (pydantic `exclude_unset`). -/
structure PackageInput where
  package : String
  version : String
  runtime_context : Option RuntimeData
deriving DecidableEq

/-- The batch options (`AnalysisOptions`); `max_packages` keeps Python
truthiness: `none` and `some 0` both mean "no cap". -/
structure AnalysisOptions where
  summarize_with_llm : Bool
  max_packages : Option Int
deriving DecidableEq

/-- The batch request (`AnalysisRequest`); the `target` metadata is a pure
pass-through and is omitted. -/
structure AnalysisRequest where
  packages : List PackageInput
  runtime_defaults : RuntimeData
  options : AnalysisOptions
deriving DecidableEq

/-- One per-package entry of the batch response (`PackageSummary`). -/
structure PackageSummary where
  package : String
  version : String
  status : String
  unique_vuln_count : Nat
  severities_found : List String
  runtime_exposure : ExposureContext
  exploitable_count : Nat
  llm_summary : String
  structured_report : Report
deriving DecidableEq

/-- How a batch call can fail: the empty-batch client rejection
(HTTP 400) or an unhandled exception escaping the per-package loop. -/
inductive BatchError where
  | emptyBatch
  | internalError
deriving DecidableEq

/-- Python list slice `l[:m]` (a negative stop counts from the end). -/
def pySliceTo (m : Int) (l : List PackageInput) : List PackageInput :=
  if 0 ≤ m then l.take m.toNat else l.take (l.length - (-m).toNat)

/-- `request.packages[: request.options.max_packages] if
request.options.max_packages else request.packages`: prefix truncation,
with `None` and `0` both falsy. -/
def processedPackages (req : AnalysisRequest) : List PackageInput :=
  match req.options.max_packages with
  | none => req.packages
  | some m => if m = 0 then req.packages else pySliceTo m req.packages

/-- `{**runtime_context, **package.runtime_context.dict(exclude_unset=True)}`:
per-key overlay of the package context onto the defaults. -/
def mergeRuntime (defaults : RuntimeData) (pkgCtx : Option RuntimeData) : RuntimeData :=
  match pkgCtx with
  | none => defaults
  | some p =>
    { network := match p.network with
        | some n => some n
        | none => defaults.network,
      web_vulnerabilities := match p.web_vulnerabilities with
        | some w => some w
        | none => defaults.web_vulnerabilities,
      database_issues := match p.database_issues with
        | some d => some d
        | none => defaults.database_issues,
      auth_weaknesses := match p.auth_weaknesses with
        | some a => some a
        | none => defaults.auth_weaknesses }

/-- The search query text `f"status for {package.package} {package.version}"`. -/
def searchQueryFor (p : PackageInput) : String :=
  let pname := p.package
  let pver := p.version
  s!"status for {pname} {pver}"

/-- The body of the per-package loop of `analyze_packages` (server.py lines
485-516).  Prompt construction and the generation pipeline are abstracted
as the environment `llm`, mapping the report the prompt is built from to a
generation outcome; no claim concerns the prompt text itself.  The loop body
has no exception handler, so a raising `_build_report` escapes as
`internalError`. -/
def processPackage (store : Option Backend) (llm : Report → LLMOutcome)
    (req : AnalysisRequest) (package : PackageInput) :
    Except BatchError PackageSummary :=
  let runtime_context := mergeRuntime req.runtime_defaults package.runtime_context
  let sr := similarity_search store (searchQueryFor package) package.package package.version 100
  match build_report package.package package.version sr.1 (some runtime_context) sr.2 with
  | .error _ => .error .internalError
  | .ok report =>
    let llm_summary :=
      if req.options.summarize_with_llm then
        chooseLlmSummary report.report_summary_text (invoke (llm report))
      else report.report_summary_text
    .ok {
      package := report.package, version := report.version,
      status := report.status,
      unique_vuln_count := report.unique_vuln_count,
      severities_found := report.severities_found,
      runtime_exposure := report.runtime_exposure,
      exploitable_count := report.exploitable_count,
      llm_summary := llm_summary,
      structured_report := report }

/-- The accumulating `for` loop: verdicts are appended in input order and
an escaping exception aborts the remaining packages. -/
def mapExcept (f : PackageInput → Except BatchError PackageSummary) :
    List PackageInput → Except BatchError (List PackageSummary)
  | [] => .ok []
  | p :: rest =>
    match f p with
    | .error e => .error e
    | .ok s =>
      match mapExcept f rest with
      | .error e => .error e
      | .ok ss => .ok (s :: ss)

/-- `analyze_packages(request)` (server.py lines 477-522): reject an empty
batch, truncate to `max_packages`, then run the per-package loop. -/
def analyze_packages (store : Option Backend) (llm : Report → LLMOutcome)
    (req : AnalysisRequest) : Except BatchError (List PackageSummary) :=
  if req.packages.isEmpty then .error .emptyBatch
  else mapExcept (processPackage store llm req) (processedPackages req)

/-- `Except.isOk` as an executable Bool. -/
def isOkE {ε α : Type} : Except ε α → Bool
  | .ok _ => true
  | .error _ => false

instance {ε α : Type} [DecidableEq ε] [DecidableEq α] : DecidableEq (Except ε α) := fun x y =>
  match x, y with
  | .ok a, .ok b =>
    if h : a = b then .isTrue (by rw [h]) else .isFalse (by intro hc; cases hc; exact h rfl)
  | .ok _, .error _ => .isFalse (by intro hc; cases hc)
  | .error _, .ok _ => .isFalse (by intro hc; cases hc)
  | .error e, .error f =>
    if h : e = f then .isTrue (by rw [h]) else .isFalse (by intro hc; cases hc; exact h rfl)

/- Concrete fixtures used by witnesses and counterexamples. -/

/-- A CRITICAL vulnerability record for `libpq5`. -/
def docCrit : DocMeta :=
  ⟨some "libpq5", some "9.6.10-0+deb9u1", some "CVE-2024-0001", some "CRITICAL",
    none, none, none, none⟩

/-- A HIGH vulnerability record for `libpq5`. -/
def docHigh : DocMeta :=
  ⟨some "libpq5", some "9.6.10-0+deb9u1", some "CVE-2024-0002", some "HIGH",
    none, none, none, none⟩

/-- A LOW vulnerability record for `libpq5`. -/
def docLow : DocMeta :=
  ⟨some "libpq5", some "9.6.10-0+deb9u1", some "CVE-2024-0003", some "LOW",
    none, none, none, none⟩

/-- The clean sentinel record (`cve_id == "N/A"`) for `libpq5`. -/
def docNA : DocMeta :=
  ⟨some "libpq5", some "9.6.10-0+deb9u1", some "N/A", none, none, none, none, none⟩

/-- A candidate document with no usable `cve_id`. -/
def docNoCve : DocMeta :=
  ⟨some "libpq5", some "9.6.10-0+deb9u1", none, none, none, none, none, none⟩

/-- A candidate document for a different package than the query. -/
def docWrongPkg : DocMeta :=
  ⟨some "openssl", some "1.0", some "CVE-2024-0004", some "HIGH", none, none, none, none⟩

/-- A runtime context with one web-exposed port. -/
def rtWeb : RuntimeData :=
  ⟨some ⟨some (.ports [80]), some [("80", "http")]⟩, none, none, none⟩

/-- A runtime context whose `open_ports` value is not iterable (accepted by
the request schema, since the `network` mapping is `Any`-valued). -/
def rtBad : RuntimeData :=
  ⟨some ⟨some .notIterable, none⟩, none, none, none⟩

/-- A runtime context with mixed ports and mixed-case service names. -/
def rtPorts : RuntimeData :=
  ⟨some ⟨some (.ports [80, 22, 8080]),
    some [("80", "HTTP"), ("22", "ssh"), ("8080", "http-proxy")]⟩, none, none, none⟩

/-- A backend that raises on the tier-1 (name+version) filter but returns a
verified document on the tier-2 (name-only) filter. -/
def tier1RaisesBackend : Backend := fun q =>
  match q with
  | .filtered _ conds _ => if conds.length = 2 then .error () else .ok [docCrit]
  | .broad _ _ => .ok []

/-- A backend whose tier-1 hit is a semantically-close but wrong-package
document. -/
def wrongPkgBackend : Backend := fun q =>
  match q with
  | .filtered _ conds _ => if conds.length = 2 then .ok [docWrongPkg] else .ok []
  | .broad _ _ => .ok []

/-- A backend that returns results only for the broad (tier-3) search. -/
def broadOnlyBackend : Backend := fun q =>
  match q with
  | .filtered _ _ _ => .ok []
  | .broad _ _ => .ok [docWrongPkg]

/-- A three-package batch whose second package carries the malformed
runtime context. -/
def reqBad : AnalysisRequest :=
  { packages := [⟨"libpq5", "1.0", none⟩, ⟨"zlib", "1.2", some rtBad⟩,
      ⟨"openssl", "3.0", none⟩],
    runtime_defaults := ⟨none, none, none, none⟩,
    options := ⟨false, none⟩ }

/-- A two-package batch with no runtime contexts and the LLM unavailable. -/
def reqOk : AnalysisRequest :=
  { packages := [⟨"libpq5", "1.0", none⟩, ⟨"openssl", "3.0", none⟩],
    runtime_defaults := ⟨none, none, none, none⟩,
    options := ⟨true, none⟩ }

/- ------------------------------------------------------------------ -/
/- Theorems.                                                          -/
/- ------------------------------------------------------------------ -/

/-- Unfolding lemma: a successful `build_report` determines every verdict
field from the classification branch, the exposure profile and the
exploitable set. -/
theorem build_report_fields {package version : String} {docs : List DocMeta}
    {rt : Option RuntimeData} {m : Bool} {r : Report}
    (h : build_report package version docs rt m = .ok r) :
    ∃ rc, build_runtime_context rt = .ok rc ∧
      r.status = (classifyDocs docs m (format_docs docs)).status ∧
      r.all_vulnerabilities = (classifyDocs docs m (format_docs docs)).context_list ∧
      r.unique_vuln_count = (classifyDocs docs m (format_docs docs)).vuln_count ∧
      r.severities_found = (classifyDocs docs m (format_docs docs)).severities ∧
      r.found_in_database = m ∧
      r.runtime_exposure.is_exposed = rc.is_exposed ∧
      r.runtime_exposure.exploitable_vulnerabilities
        = exploitableOf rc (classifyDocs docs m (format_docs docs)).context_list ∧
      r.exploitable_count
        = (exploitableOf rc (classifyDocs docs m (format_docs docs)).context_list).length ∧
      r.report_summary_text
        = summary_text package version (classifyDocs docs m (format_docs docs))
            (exploitableOf rc (classifyDocs docs m (format_docs docs)).context_list) := by
  unfold build_report at h
  cases hrc : build_runtime_context rt with
  | error e => rw [hrc] at h; cases h
  | ok rc =>
    rw [hrc] at h
    injection h with h
    subst h
    exact ⟨rc, rfl, rfl, rfl, rfl, rfl, rfl, rfl, rfl, rfl, rfl⟩

/-- The classification branch for a non-exact match. -/
theorem classifyDocs_not_exact (docs : List DocMeta) (cl : List VulnRecord) :
    classifyDocs docs false cl =
      { status := "UNKNOWN", severities := [], vuln_count := 0,
        context_list := [], docs_count := 0 } := by
  simp [classifyDocs]

/-- C1: for every `_build_report` call with `is_exact_match` false, the
returned verdict has status `"UNKNOWN"`, an empty vulnerability list,
`unique_vuln_count = 0` and `found_in_database = false`, regardless of the
candidate documents supplied. -/
theorem C1_not_exact_forces_unknown (package version : String)
    (docs : List DocMeta) (rt : Option RuntimeData) (r : Report)
    (h : build_report package version docs rt false = .ok r) :
    r.status = "UNKNOWN" ∧ r.all_vulnerabilities = [] ∧
    r.unique_vuln_count = 0 ∧ r.found_in_database = false := by
  obtain ⟨rc, _, hs, hv, hc, _, hf, _⟩ := build_report_fields h
  rw [classifyDocs_not_exact] at hs hv hc
  exact ⟨hs, hv, hc, hf⟩

/-- Witness for C1 at a concrete non-exact call carrying a CRITICAL
candidate document. -/
theorem C1_not_exact_forces_unknown_witness :
    (build_report "libpq5" "1.0" [docCrit] none false).toOption.map Report.status
        = some "UNKNOWN" ∧
    (build_report "libpq5" "1.0" [docCrit] none false).toOption.map
        Report.unique_vuln_count = some 0 := by
  obtain ⟨r, hr⟩ : ∃ r, build_report "libpq5" "1.0" [docCrit] none false = .ok r :=
    ⟨_, rfl⟩
  have h := C1_not_exact_forces_unknown "libpq5" "1.0" [docCrit] none r hr
  rw [hr]
  simp [Except.toOption, h.1, h.2.2.1]

/-- The classification branch for an exact match containing the clean
sentinel. -/
theorem classifyDocs_exact_clean {docs : List DocMeta} {d : DocMeta}
    (cl : List VulnRecord) (hie : docs.isEmpty = false)
    (hfind : docs.find? (fun x => x.cve_id == some "N/A") = some d) :
    classifyDocs docs true cl =
      { status := "CLEAN", severities := [], vuln_count := 0,
        context_list := cl, docs_count := docs.length } := by
  simp [classifyDocs, hie, hfind]

/-- The classification branch for an exact match without the clean
sentinel. -/
theorem classifyDocs_exact_vuln {docs : List DocMeta}
    (cl : List VulnRecord) (hie : docs.isEmpty = false)
    (hfind : docs.find? (fun x => x.cve_id == some "N/A") = none) :
    classifyDocs docs true cl =
      { status := "VULNERABLE", severities := sortedSet (truthySeverities cl),
        vuln_count := cl.length, context_list := cl, docs_count := docs.length } := by
  simp [classifyDocs, hie, hfind]

/-- C2 counterexample: at the concrete exact-match call on
`[docNA, docCrit]` with an exposed runtime context, the claim "the
exploitable set is computed only when status == VULNERABLE" fails: the
status is CLEAN, yet the exploitable set is computed and
`exploitable_count = 1`. -/
theorem C2_exploitable_counterexample :
    (build_report "libpq5" "9.6.10-0+deb9u1" [docNA, docCrit] (some rtWeb) true).toOption.map
        Report.status = some "CLEAN" ∧
    (build_report "libpq5" "9.6.10-0+deb9u1" [docNA, docCrit] (some rtWeb) true).toOption.map
        Report.exploitable_count = some 1 ∧
    (build_report "libpq5" "9.6.10-0+deb9u1" [docNA, docCrit] (some rtWeb) true).toOption.map
        (fun r => r.runtime_exposure.exploitable_vulnerabilities)
      = some ["CVE-2024-0001"] :=
  ⟨rfl, rfl, rfl⟩

/-- C2 (amended): the exploitable set is computed whenever the exposure
profile is exposed and the (post-branch) vulnerability list is non-empty —
not only when status is VULNERABLE — and then equals the CRITICAL/HIGH
subsequence of the vulnerabilities in original relative order, with
`exploitable_count` its length; when not exposed it is empty and
`exploitable_count = 0`. -/
theorem C2_exploitable_amended (package version : String) (docs : List DocMeta)
    (rt : Option RuntimeData) (m : Bool) (r : Report)
    (h : build_report package version docs rt m = .ok r) :
    r.runtime_exposure.exploitable_vulnerabilities =
      (if r.runtime_exposure.is_exposed && !r.all_vulnerabilities.isEmpty then
        (r.all_vulnerabilities.filter (fun vr =>
          vr.severity == some "CRITICAL" || vr.severity == some "HIGH")).map VulnRecord.cve_id
      else []) ∧
    r.exploitable_count = r.runtime_exposure.exploitable_vulnerabilities.length ∧
    (r.runtime_exposure.is_exposed = false →
      r.exploitable_count = 0 ∧ r.runtime_exposure.exploitable_vulnerabilities = []) ∧
    r.runtime_exposure.exploitable_vulnerabilities.Sublist
      (r.all_vulnerabilities.map VulnRecord.cve_id) := by
  obtain ⟨rc, hrc, hs, hv, hc, hsev, hf, hexp, hev, hecount, hsum⟩ := build_report_fields h
  refine ⟨?_, ?_, ?_, ?_⟩
  · rw [hev, hexp, hv]; rfl
  · rw [hecount, hev]
  · intro hfalse
    rw [hexp] at hfalse
    constructor
    · rw [hecount]; simp [exploitableOf, hfalse]
    · rw [hev]; simp [exploitableOf, hfalse]
  · rw [hev, hv]
    unfold exploitableOf
    split
    · exact (List.filter_sublist _).map _
    · exact List.nil_sublist _

/-- Witness for C2 (amended) at the spec scenario CRITICAL/LOW/HIGH with an
exposed port: the exploitable set keeps exactly the CRITICAL and HIGH ids
in order, and its length agrees with `exploitable_count`. -/
theorem C2_exploitable_amended_witness :
    (build_report "libpq5" "9.6.10-0+deb9u1" [docCrit, docLow, docHigh] (some rtWeb) true).toOption.map
        (fun r => r.runtime_exposure.exploitable_vulnerabilities)
      = some ["CVE-2024-0001", "CVE-2024-0002"] ∧
    (build_report "libpq5" "9.6.10-0+deb9u1" [docCrit, docLow, docHigh] (some rtWeb) true).toOption.map
        Report.exploitable_count
      = (build_report "libpq5" "9.6.10-0+deb9u1" [docCrit, docLow, docHigh] (some rtWeb) true).toOption.map
        (fun r => r.runtime_exposure.exploitable_vulnerabilities.length) := by
  constructor
  · rfl
  · obtain ⟨r, hr⟩ : ∃ r,
        build_report "libpq5" "9.6.10-0+deb9u1" [docCrit, docLow, docHigh] (some rtWeb) true
          = .ok r := ⟨_, rfl⟩
    have h := C2_exploitable_amended "libpq5" "9.6.10-0+deb9u1" [docCrit, docLow, docHigh]
      (some rtWeb) true r hr
    rw [hr]
    simp [Except.toOption, h.2.1]

/-- C3 counterexample: at the concrete exact-match call on
`[docNA, docCrit]`, the claim "status is CLEAN only if the normalized list
is empty" fails: the status is CLEAN while the normalized list still holds
the CRITICAL record. -/
theorem C3_clean_counterexample :
    (build_report "libpq5" "9.6.10-0+deb9u1" [docNA, docCrit] none true).toOption.map
        Report.status = some "CLEAN" ∧
    (build_report "libpq5" "9.6.10-0+deb9u1" [docNA, docCrit] none true).toOption.map
        (fun r => r.all_vulnerabilities.map VulnRecord.cve_id)
      = some ["CVE-2024-0001"] :=
  ⟨rfl, rfl⟩

/-- C3 (amended): with an exact match and a non-empty candidate list, the
status is CLEAN iff the raw candidate set contains the clean sentinel
record (`cve_id == "N/A"`) — with no condition on the normalized list —
and a CLEAN verdict reports `unique_vuln_count = 0`. -/
theorem C3_clean_amended (package version : String) (docs : List DocMeta)
    (rt : Option RuntimeData) (r : Report) (hne : docs ≠ [])
    (h : build_report package version docs rt true = .ok r) :
    (r.status = "CLEAN" ↔ ∃ d ∈ docs, d.cve_id = some "N/A") ∧
    (r.status = "CLEAN" → r.unique_vuln_count = 0) := by
  obtain ⟨rc, hrc, hs, hv, hc, _⟩ := build_report_fields h
  have hie : docs.isEmpty = false := by
    cases docs with
    | nil => exact absurd rfl hne
    | cons a l => rfl
  cases hfind : docs.find? (fun x => x.cve_id == some "N/A") with
  | some d =>
    rw [classifyDocs_exact_clean (format_docs docs) hie hfind] at hs hc
    have hs' : r.status = "CLEAN" := hs
    have hc' : r.unique_vuln_count = 0 := hc
    have hmem := List.mem_of_find?_eq_some hfind
    have hpred := List.find?_some hfind
    have hcve : d.cve_id = some "N/A" := by simpa using hpred
    constructor
    · rw [hs']
      simp only [true_iff]
      exact ⟨d, hmem, hcve⟩
    · intro _; exact hc'
  | none =>
    rw [classifyDocs_exact_vuln (format_docs docs) hie hfind] at hs
    have hs' : r.status = "VULNERABLE" := hs
    constructor
    · rw [hs']
      constructor
      · intro hcl; exact absurd hcl (by decide)
      · rintro ⟨d, hmem, hcve⟩
        have hnp := List.find?_eq_none.mp hfind d hmem
        exact absurd (by simp [hcve]) hnp
    · intro hcl
      rw [hs'] at hcl
      exact absurd hcl (by decide)

/-- Witness for C3 (amended): the spec scenario of a single clean-sentinel
candidate yields the CLEAN status. -/
theorem C3_clean_amended_witness :
    (build_report "libpq5" "9.6.10-0+deb9u1" [docNA] none true).toOption.map
        Report.status = some "CLEAN" ∧
    (build_report "libpq5" "9.6.10-0+deb9u1" [docNA] none true).toOption.map
        Report.unique_vuln_count = some 0 := by
  obtain ⟨r, hr⟩ : ∃ r,
      build_report "libpq5" "9.6.10-0+deb9u1" [docNA] none true = .ok r := ⟨_, rfl⟩
  have h := C3_clean_amended "libpq5" "9.6.10-0+deb9u1" [docNA] none r (by decide) hr
  have hclean : r.status = "CLEAN" := h.1.mpr ⟨docNA, List.Mem.head _, rfl⟩
  rw [hr]
  simp [Except.toOption, hclean, h.2 hclean]

/-- The Normalizer emits nothing when every document's `cve_id` is missing
or empty. -/
theorem format_docs_aux_nil_of_unusable {docs : List DocMeta} (seen : List String)
    (h : ∀ d ∈ docs, d.cve_id = none ∨ d.cve_id = some "") :
    format_docs_aux docs seen = [] := by
  induction docs generalizing seen with
  | nil => rfl
  | cons d ds ih =>
    rcases h d (List.Mem.head _) with h1 | h1 <;>
      simp [format_docs_aux, h1] <;>
      exact ih _ (fun x hx => h x (List.Mem.tail _ hx))

/-- The VULNERABLE summary template at a zero vulnerability count. -/
theorem summary_zero (p v : String) (n : Nat) (rc : ExposureContext) :
    summary_text p v ⟨"VULNERABLE", sortedSet (truthySeverities []), 0, [], n⟩
        (exploitableOf rc []) =
      s!"{p}@{v} has 0 known issues. Consider updating to a patched version." := by
  apply String.ext
  simp [summary_text, exploitableOf]
  decide

/-- C10: with an exact match, a non-empty candidate list, no clean sentinel
and no usable `cve_id` on any candidate, the verdict is VULNERABLE with
`unique_vuln_count = 0`, empty `severities_found`, and a summary reporting
0 known issues. -/
theorem C10_exact_no_usable_cves (package version : String) (docs : List DocMeta)
    (rt : Option RuntimeData) (r : Report) (hne : docs ≠ [])
    (hcve : ∀ d ∈ docs, d.cve_id = none ∨ d.cve_id = some "")
    (h : build_report package version docs rt true = .ok r) :
    r.status = "VULNERABLE" ∧ r.unique_vuln_count = 0 ∧
    r.severities_found = [] ∧
    r.report_summary_text
      = s!"{package}@{version} has 0 known issues. Consider updating to a patched version." := by
  obtain ⟨rc, hrc, hs, hv, hc, hsev, hf, hexp, hev, hecount, hsum⟩ := build_report_fields h
  have hie : docs.isEmpty = false := by
    cases docs with
    | nil => exact absurd rfl hne
    | cons a l => rfl
  have hfd : format_docs docs = [] := format_docs_aux_nil_of_unusable [] hcve
  have hfind : docs.find? (fun x => x.cve_id == some "N/A") = none := by
    rw [List.find?_eq_none]
    intro x hx
    rcases hcve x hx with h1 | h1 <;> simp [h1]
  rw [hfd, classifyDocs_exact_vuln [] hie hfind] at hs hc hsev hsum
  refine ⟨hs, hc, hsev, ?_⟩
  rw [hsum]
  exact summary_zero package version docs.length rc

/-- Witness for C10 at a single candidate with a missing `cve_id`. -/
theorem C10_exact_no_usable_cves_witness :
    (build_report "libssl" "1.1" [docNoCve] none true).toOption.map Report.status
      = some "VULNERABLE" ∧
    (build_report "libssl" "1.1" [docNoCve] none true).toOption.map Report.report_summary_text
      = some "libssl@1.1 has 0 known issues. Consider updating to a patched version." := by
  obtain ⟨r, hr⟩ : ∃ r, build_report "libssl" "1.1" [docNoCve] none true = .ok r := ⟨_, rfl⟩
  have h := C10_exact_no_usable_cves "libssl" "1.1" [docNoCve] none r
    (by decide) (by decide) hr
  rw [hr]
  refine ⟨?_, ?_⟩
  · simp [Except.toOption, h.1]
  · simp [Except.toOption, h.2.2.2]
    decide

/-- The accumulator form of first-occurrence dedup filters out the
already-seen values. -/
theorem firstSeenA_eq (l : List String) (seen : List String) :
    firstSeenA l seen = (firstSeen l).filter (fun x => !(seen.contains x)) := by
  induction l generalizing seen with
  | nil => rfl
  | cons c cs ih =>
    show (if seen.contains c then firstSeenA cs seen else c :: firstSeenA cs (c :: seen))
        = (c :: (firstSeen cs).filter (fun x => !(x == c))).filter
            (fun x => !(seen.contains x))
    rw [List.filter_cons]
    by_cases hc : seen.contains c
    · have hmem0 : c ∈ seen := by simpa using hc
      rw [if_pos hc, if_neg (by simp [hmem0]), ih, List.filter_filter]
      apply List.filter_congr
      intro a _
      by_cases hac : (a == c) = true
      · have ha : a = c := eq_of_beq hac
        subst ha
        have hmem : a ∈ seen := by simpa using hc
        simp [hmem, hc]
      · have hac2 : (a == c) = false := by simpa using hac
        simp [hac2]
    · rw [if_neg hc, if_pos (by simpa using hc), ih, List.filter_filter]
      congr 1
      apply List.filter_congr
      intro a _
      show (!((c :: seen).contains a)) = (!(seen.contains a) && !(a == c))
      rw [List.contains_cons, Bool.not_or, Bool.and_comm]

/-- Unfolding: a document with a missing `cve_id` is skipped. -/
theorem fda_cons_none {d : DocMeta} (ds : List DocMeta) (seen : List String)
    (h : d.cve_id = none) :
    format_docs_aux (d :: ds) seen = format_docs_aux ds seen := by
  simp [format_docs_aux, h]

/-- Unfolding: a document with an empty, sentinel or already-seen `cve_id`
is skipped. -/
theorem fda_cons_skip {d : DocMeta} (ds : List DocMeta) (seen : List String)
    {c : String} (h : d.cve_id = some c)
    (hc : (c == "" || c == "N/A" || seen.contains c) = true) :
    format_docs_aux (d :: ds) seen = format_docs_aux ds seen := by
  simp only [format_docs_aux, h]
  rw [if_pos hc]

/-- Unfolding: a document with a fresh usable `cve_id` is emitted and its
id recorded as seen. -/
theorem fda_cons_keep {d : DocMeta} (ds : List DocMeta) (seen : List String)
    {c : String} (h : d.cve_id = some c)
    (hc : (c == "" || c == "N/A" || seen.contains c) = false) :
    format_docs_aux (d :: ds) seen =
      { cve_id := c, severity := d.severity, cvss := d.cvss,
        description := d.description,
        exploits := decodeLinks d.exploits_json,
        fixes := decodeLinks d.fixes_json } :: format_docs_aux ds (c :: seen) := by
  simp only [format_docs_aux, h]
  rw [if_neg (by rw [hc]; exact Bool.false_ne_true)]

/-- Unfolding `validCveIds` over a head with no `cve_id`. -/
theorem validCveIds_cons_none {d : DocMeta} (ds : List DocMeta)
    (h : d.cve_id = none) :
    validCveIds (d :: ds) = validCveIds ds := by
  simp [validCveIds, List.filterMap_cons, h]

/-- Unfolding `validCveIds` over a head with an empty or sentinel id. -/
theorem validCveIds_cons_bad {d : DocMeta} (ds : List DocMeta) {c : String}
    (h : d.cve_id = some c) (hbad : (c == "" || c == "N/A") = true) :
    validCveIds (d :: ds) = validCveIds ds := by
  simp only [validCveIds, List.filterMap_cons, h]
  rw [if_pos hbad]

/-- Unfolding `validCveIds` over a head with a usable id. -/
theorem validCveIds_cons_good {d : DocMeta} (ds : List DocMeta) {c : String}
    (h : d.cve_id = some c) (hgood : (c == "" || c == "N/A") = false) :
    validCveIds (d :: ds) = c :: validCveIds ds := by
  simp only [validCveIds, List.filterMap_cons, h]
  rw [if_neg (by rw [hgood]; exact Bool.false_ne_true)]

/-- Unfolding `firstSeenA` over an already-seen head. -/
theorem firstSeenA_cons_mem {c : String} (cs seen : List String)
    (h : seen.contains c = true) :
    firstSeenA (c :: cs) seen = firstSeenA cs seen := by
  simp only [firstSeenA]
  rw [if_pos h]

/-- Unfolding `firstSeenA` over a fresh head. -/
theorem firstSeenA_cons_new {c : String} (cs seen : List String)
    (h : seen.contains c = false) :
    firstSeenA (c :: cs) seen = c :: firstSeenA cs (c :: seen) := by
  simp only [firstSeenA]
  rw [if_neg (by rw [h]; exact Bool.false_ne_true)]

/-- The cve ids emitted by the Normalizer loop are exactly the usable ids
deduplicated against the accumulator, first occurrence first. -/
theorem format_docs_aux_map (docs : List DocMeta) (seen : List String) :
    (format_docs_aux docs seen).map VulnRecord.cve_id
      = firstSeenA (validCveIds docs) seen := by
  induction docs generalizing seen with
  | nil => rfl
  | cons d ds ih =>
    cases hcve : d.cve_id with
    | none =>
      rw [fda_cons_none ds seen hcve, validCveIds_cons_none ds hcve]
      exact ih seen
    | some c =>
      by_cases hv : (c == "" || c == "N/A") = true
      · have hv3 : (c == "" || c == "N/A" || seen.contains c) = true := by
          rcases Bool.or_eq_true_iff.mp hv with h1 | h1 <;> simp [h1]
        rw [fda_cons_skip ds seen hcve hv3, validCveIds_cons_bad ds hcve hv]
        exact ih seen
      · have hv' : (c == "" || c == "N/A") = false := by simpa using hv
        rcases Bool.or_eq_false_iff.mp hv' with ⟨h1, h2⟩
        rw [validCveIds_cons_good ds hcve hv']
        by_cases hs : seen.contains c
        · have hm : c ∈ seen := by simpa using hs
          have hv3 : (c == "" || c == "N/A" || seen.contains c) = true := by
            simp [h1, h2, hm]
          rw [fda_cons_skip ds seen hcve hv3, firstSeenA_cons_mem _ _ hs]
          exact ih seen
        · have hs' : (seen.contains c) = false := by simpa using hs
          have hnm : c ∉ seen := by simpa using hs'
          have hv3 : (c == "" || c == "N/A" || seen.contains c) = false := by
            simp [h1, h2, hnm]
          rw [fda_cons_keep ds seen hcve hv3, firstSeenA_cons_new _ _ hs',
            List.map_cons]
          exact congrArg (c :: ·) (ih (c :: seen))

/-- First-occurrence dedup yields pairwise distinct values. -/
theorem firstSeen_nodup (l : List String) : (firstSeen l).Nodup := by
  induction l with
  | nil => exact List.nodup_nil
  | cons c cs ih =>
    show (c :: (firstSeen cs).filter (fun x => !(x == c))).Nodup
    refine List.Nodup.cons ?_ (ih.filter _)
    intro hmem
    rcases List.mem_filter.mp hmem with ⟨_, hpc⟩
    simp at hpc

/-- First-occurrence dedup only returns elements of the input. -/
theorem mem_firstSeen {x : String} {l : List String} (h : x ∈ firstSeen l) :
    x ∈ l := by
  induction l with
  | nil => exact absurd h (by simp [firstSeen])
  | cons c cs ih =>
    have h2 : x ∈ c :: (firstSeen cs).filter (fun y => !(y == c)) := h
    rcases List.mem_cons.mp h2 with h3 | h3
    · exact h3 ▸ List.Mem.head _
    · exact List.Mem.tail _ (ih (List.mem_filter.mp h3).1)

/-- Every usable cve id comes from a document and is neither empty nor the
sentinel. -/
theorem mem_validCveIds {x : String} {docs : List DocMeta}
    (h : x ∈ validCveIds docs) :
    x ≠ "" ∧ x ≠ "N/A" ∧ ∃ d ∈ docs, d.cve_id = some x := by
  rcases List.mem_filterMap.mp h with ⟨d, hd, hf⟩
  cases hcve : d.cve_id with
  | none => rw [hcve] at hf; cases hf
  | some c =>
    rw [hcve] at hf
    have hf2 : (if (c == "" || c == "N/A") = true then none else some c) = some x := hf
    by_cases hv : (c == "" || c == "N/A") = true
    · rw [if_pos hv] at hf2; cases hf2
    · have hv' : (c == "" || c == "N/A") = false := by simpa using hv
      rw [if_neg (by rw [hv']; exact Bool.false_ne_true)] at hf2
      injection hf2 with hfx
      subst hfx
      rcases Bool.or_eq_false_iff.mp hv' with ⟨h1, h2⟩
      exact ⟨by simpa using h1, by simpa using h2, d, hd, hcve⟩

/-- C5: the Normalizer emits a record only for documents whose `cve_id` is
present, non-empty, not `"N/A"` and not previously seen; the emitted
`cve_id` values are exactly the usable ids with first occurrences kept in
input order, hence pairwise distinct. -/
theorem C5_normalizer_dedup (docs : List DocMeta) :
    (format_docs docs).map VulnRecord.cve_id = firstSeen (validCveIds docs) ∧
    ((format_docs docs).map VulnRecord.cve_id).Nodup ∧
    ∀ vr ∈ format_docs docs, vr.cve_id ≠ "" ∧ vr.cve_id ≠ "N/A" ∧
      ∃ d ∈ docs, d.cve_id = some vr.cve_id := by
  have hmap : (format_docs docs).map VulnRecord.cve_id
      = firstSeen (validCveIds docs) := by
    rw [format_docs, format_docs_aux_map, firstSeenA_eq]
    apply List.filter_eq_self.mpr
    intro a _
    rfl
  refine ⟨hmap, ?_, ?_⟩
  · rw [hmap]; exact firstSeen_nodup _
  · intro vr hvr
    have hx : vr.cve_id ∈ firstSeen (validCveIds docs) := by
      rw [← hmap]
      exact List.mem_map_of_mem _ hvr
    exact mem_validCveIds (mem_firstSeen hx)

/-- C4 (code bug): when the generation pipeline raises, `invoke` returns
the sentinel `"LLM invocation failed"`; the caller-side filter only checks
for `"LLM unavailable"`, so the raised-path sentinel becomes the display
text instead of the deterministic summary.  The unavailable and empty
outcomes do keep the deterministic summary as the claim requires. -/
theorem C4_failure_surfaces_sentinel :
    invoke LLMOutcome.raised = "LLM invocation failed" ∧
    (build_report "libpq5" "9.6.10-0+deb9u1" [] none false).toOption.map
        (fun r => chooseLlmSummary r.report_summary_text (invoke LLMOutcome.raised))
      = some "LLM invocation failed" ∧
    (build_report "libpq5" "9.6.10-0+deb9u1" [] none false).toOption.map
        (fun r => r.report_summary_text == "LLM invocation failed") = some false ∧
    (build_report "libpq5" "9.6.10-0+deb9u1" [] none false).toOption.map
        (fun r => chooseLlmSummary r.report_summary_text (invoke LLMOutcome.notLoaded))
      = (build_report "libpq5" "9.6.10-0+deb9u1" [] none false).toOption.map
        Report.report_summary_text ∧
    (build_report "libpq5" "9.6.10-0+deb9u1" [] none false).toOption.map
        (fun r => chooseLlmSummary r.report_summary_text (invoke (LLMOutcome.generated "")))
      = (build_report "libpq5" "9.6.10-0+deb9u1" [] none false).toOption.map
        Report.report_summary_text :=
  ⟨rfl, by decide, by decide, rfl, rfl⟩

/-- C9: the Runtime Exposure Correlator maps a missing context to the
all-false/empty profile; a port is web-exposed iff its lowercased announced
service name is one of http, https, http-proxy; `is_exposed` holds iff at
least one such port exists; and `exposed_services` maps `exposed_ports`
through the service table with default `"unknown"`, preserving length and
order. -/
theorem C9_runtime_exposure (rd : RuntimeData) (net : NetworkInfo)
    (ports : List Int) (ctx : ExposureContext)
    (hnet : rd.network = some net)
    (hports : net.open_ports = some (PyPorts.ports ports))
    (h : build_runtime_context (some rd) = .ok ctx) :
    (build_runtime_context none =
      .ok { is_exposed := false, exposed_ports := [], exposed_services := [],
            web_vulnerabilities := [], database_issues := [],
            auth_weaknesses := [], exploitable_vulnerabilities := [] }) ∧
    ctx.exposed_ports = ports.filter (fun port =>
      pyLower (serviceFor (net.services.getD []) port "") == "http" ||
      pyLower (serviceFor (net.services.getD []) port "") == "https" ||
      pyLower (serviceFor (net.services.getD []) port "") == "http-proxy") ∧
    (ctx.is_exposed = true ↔ ctx.exposed_ports ≠ []) ∧
    ctx.exposed_services
      = ctx.exposed_ports.map (fun port =>
          serviceFor (net.services.getD []) port "unknown") ∧
    ctx.exposed_services.length = ctx.exposed_ports.length := by
  have hfun : (fun port =>
      pyLower (serviceFor (net.services.getD []) port "") == "http" ||
      pyLower (serviceFor (net.services.getD []) port "") == "https" ||
      pyLower (serviceFor (net.services.getD []) port "") == "http-proxy")
      = isWebPort (net.services.getD []) := by
    funext port
    rfl
  refine ⟨rfl, ?_⟩
  rw [hfun]
  simp only [build_runtime_context, hnet, hports, Option.getD_some] at h
  by_cases hwp : (ports.filter (isWebPort (net.services.getD []))).isEmpty
  · rw [if_pos hwp] at h
    injection h with h
    subst h
    have hnil : ports.filter (isWebPort (net.services.getD [])) = [] :=
      List.isEmpty_iff.mp hwp
    refine ⟨hnil.symm, ?_, rfl, rfl⟩
    constructor
    · intro hfb; cases hfb
    · intro hne; exact absurd rfl hne
  · rw [if_neg hwp] at h
    injection h with h
    subst h
    refine ⟨rfl, ?_, rfl, by rw [List.length_map]⟩
    constructor
    · intro _
      exact fun hnil => hwp (by rw [show (ports.filter (isWebPort (net.services.getD []))) = [] from hnil]; rfl)
    · intro _; rfl

/-- Witness for C9 at a context with mixed ports and mixed-case service
names: ports 80 and 8080 are web-exposed (case-insensitive), 22 is not,
and the services list mirrors the exposed ports in order. -/
theorem C9_runtime_exposure_witness :
    (build_runtime_context (some rtPorts)).toOption.map ExposureContext.exposed_ports
      = some [80, 8080] ∧
    (build_runtime_context (some rtPorts)).toOption.map ExposureContext.exposed_services
      = some ["HTTP", "http-proxy"] ∧
    (build_runtime_context (some rtPorts)).toOption.map ExposureContext.is_exposed
      = some true := by
  obtain ⟨ctx, hc⟩ : ∃ ctx, build_runtime_context (some rtPorts) = .ok ctx := ⟨_, rfl⟩
  have h := C9_runtime_exposure rtPorts
    ⟨some (.ports [80, 22, 8080]),
      some [("80", "HTTP"), ("22", "ssh"), ("8080", "http-proxy")]⟩
    [80, 22, 8080] ctx rfl rfl hc
  have hp : ctx.exposed_ports = [80, 8080] := by rw [h.2.1]; rfl
  have hsvc : ctx.exposed_services = ["HTTP", "http-proxy"] := by
    rw [h.2.2.2.1, hp]; rfl
  have hex : ctx.is_exposed = true := h.2.2.1.mpr (by rw [hp]; exact by decide)
  rw [hc]
  simp [Except.toOption, hp, hsvc, hex]

/-- C6 counterexample: a backend that raises on the tier-1 filter but holds
a verified document behind the tier-2 filter.  The inference server's
search returns ([], false) — the next tier is not attempted — even though
attempting tier 2 (as the simpler profile does) would find the document. -/
theorem C6_error_policy_counterexample :
    similarity_search (some tier1RaisesBackend) "q" "libpq5" "9.6.10-0+deb9u1" 100
      = ([], false) ∧
    tier1RaisesBackend (exactFilter "q" "libpq5" "9.6.10-0+deb9u1" 100) = .error () ∧
    tier1RaisesBackend (nameOnlyFilter "q" "libpq5" 100) = .ok [docCrit] ∧
    docCrit.package_name = some "libpq5" ∧
    similarity_search_simple (some tier1RaisesBackend) "q" "libpq5" "9.6.10-0+deb9u1" 100
      = [docCrit] :=
  ⟨rfl, rfl, rfl, rfl, rfl⟩

/-- C6 (amended): an unavailable backend makes every call return empty
results immediately (([], false) in the inference server) without raising;
any backend error is caught, but in the inference server an error during a
tier aborts the remaining tiers and yields ([], false), while in the
simpler deployment profile a tier error counts as zero results for that
tier and the next tier is still attempted. -/
theorem C6_error_policy_amended (query n v : String) (b : Backend) (k : Nat) :
    similarity_search none query n v k = ([], false) ∧
    similarity_search_simple none query n v k = [] ∧
    (b (exactFilter query n v k) = .error () →
      similarity_search (some b) query n v k = ([], false)) ∧
    (∀ ds, b (exactFilter query n v k) = .error () →
      b (nameOnlyFilter query n k) = .ok ds → ds ≠ [] →
      similarity_search_simple (some b) query n v k = ds) := by
  refine ⟨rfl, rfl, ?_, ?_⟩
  · intro he
    simp [similarity_search, he]
  · intro ds he hok hne
    have hie : ds.isEmpty = false := by
      cases ds with
      | nil => exact absurd rfl hne
      | cons a l => rfl
    simp [similarity_search_simple, he, hok, hie]

/-- Witness for C6 (amended) at the concrete raising backend. -/
theorem C6_error_policy_amended_witness :
    similarity_search (some tier1RaisesBackend) "q" "libpq5" "1.0" 100 = ([], false) ∧
    similarity_search_simple (some tier1RaisesBackend) "q" "libpq5" "1.0" 100
      = [docCrit] := by
  have h := C6_error_policy_amended "q" "libpq5" "1.0" tier1RaisesBackend 100
  exact ⟨h.2.2.1 rfl, h.2.2.2 [docCrit] rfl rfl (by decide)⟩

/-- Membership in the re-verification filter forces the package name. -/
theorem mem_verify {d : DocMeta} {n : String} {docs : List DocMeta}
    (h : d ∈ verify n docs) : d.package_name = some n := by
  have h2 := (List.mem_filter.mp h).2
  simpa using h2

/-- The inference-server search returns either the degraded pair or a
non-empty verified result flagged as an exact match. -/
theorem similarity_search_cases (query n v : String) (store : Option Backend)
    (k : Nat) :
    similarity_search store query n v k = ([], false) ∨
    ∃ docs, similarity_search store query n v k = (verify n docs, true) ∧
      verify n docs ≠ [] := by
  cases store with
  | none => exact Or.inl rfl
  | some b =>
    simp only [similarity_search]
    cases hb : b (exactFilter query n v k) with
    | error e => exact Or.inl rfl
    | ok docs =>
      by_cases hv : (verify n docs).isEmpty
      · cases hb2 : b (nameOnlyFilter query n k) with
        | error e => left; simp [hv]
        | ok docs2 =>
          by_cases hv2 : (verify n docs2).isEmpty
          · left; simp [hv, hv2]
          · right
            refine ⟨docs2, by simp [hv, hv2], ?_⟩
            intro hnil
            rw [hnil] at hv2
            exact hv2 rfl
      · right
        refine ⟨docs, by simp [hv], ?_⟩
        intro hnil
        rw [hnil] at hv
        exact hv rfl

/-- C7 counterexample: the simpler deployment profile performs no
re-verification — a tier-1 hit for the wrong package is returned as-is —
while the inference server filters it out. -/
theorem C7_verification_counterexample :
    similarity_search_simple (some wrongPkgBackend) "q" "libpq5" "1.0" 100
      = [docWrongPkg] ∧
    docWrongPkg.package_name ≠ some "libpq5" ∧
    similarity_search (some wrongPkgBackend) "q" "libpq5" "1.0" 100 = ([], false) :=
  ⟨rfl, by decide, rfl⟩

/-- C7 (amended): in the inference server every returned document's
`package_name` equals the query package name and `is_exact_match` is true
iff a tier produced such verified results; the simpler deployment profile
returns tier results unfiltered (tier 1 shown, and the broad tier-3 search
over `"{name} {version}"` capped at `min 5 k`), with no exact-match flag. -/
theorem C7_verification_amended (query n v : String) (store : Option Backend)
    (k : Nat) :
    (∀ d ∈ (similarity_search store query n v k).1, d.package_name = some n) ∧
    ((similarity_search store query n v k).2 = true ↔
      (similarity_search store query n v k).1 ≠ []) ∧
    (∀ b ds, store = some b → b (exactFilter query n v k) = .ok ds → ds ≠ [] →
      similarity_search_simple store query n v k = ds) ∧
    (∀ b ds, store = some b →
      b (exactFilter query n v k) = .ok [] →
      b (nameOnlyFilter query n k) = .ok [] →
      b (.broad (n ++ " " ++ v) (min 5 k)) = .ok ds →
      similarity_search_simple store query n v k = ds) := by
  refine ⟨?_, ?_, ?_, ?_⟩
  · rcases similarity_search_cases query n v store k with h | ⟨docs, h, _⟩
    · rw [h]
      intro d hd
      exact absurd hd (List.not_mem_nil d)
    · rw [h]
      intro d hd
      exact mem_verify hd
  · rcases similarity_search_cases query n v store k with h | ⟨docs, h, hne⟩
    · rw [h]
      simp
    · rw [h]
      simp [hne]
  · intro b ds hst hok hne
    subst hst
    have hie : ds.isEmpty = false := by
      cases ds with
      | nil => exact absurd rfl hne
      | cons a l => rfl
    simp [similarity_search_simple, hok, hie]
  · intro b ds hst h1 h2 h3
    subst hst
    simp [similarity_search_simple, h1, h2, h3]

/-- Witness for C7 (amended): the unfiltered tier-1 pass-through of the
simpler profile at the wrong-package backend, and the inference server's
flag at the same input. -/
theorem C7_verification_amended_witness :
    similarity_search_simple (some wrongPkgBackend) "q" "libpq5" "1.0" 100
      = [docWrongPkg] ∧
    (similarity_search (some wrongPkgBackend) "q" "libpq5" "1.0" 100).2 = false := by
  constructor
  · exact (C7_verification_amended "q" "libpq5" "1.0" (some wrongPkgBackend) 100).2.2.1
      wrongPkgBackend [docWrongPkg] rfl rfl (by decide)
  · rfl

/-- C8 counterexample: in the three-package batch whose second package
carries a malformed runtime context, the per-package loop has no exception
handler, so the whole call aborts with an internal error — no verdicts are
returned for the healthy first and third packages. -/
theorem C8_batch_counterexample :
    analyze_packages none (fun _ => .notLoaded) reqBad = .error .internalError ∧
    reqBad.packages.length = 3 ∧
    isOkE (processPackage none (fun _ => .notLoaded) reqBad
      (reqBad.packages.get ⟨0, by decide⟩)) = true ∧
    isOkE (processPackage none (fun _ => .notLoaded) reqBad
      (reqBad.packages.get ⟨2, by decide⟩)) = true :=
  ⟨by decide, rfl, by decide, by decide⟩

/-- When every per-package step succeeds, the accumulating loop returns one
verdict per package in input order, each produced by that package's own
step alone. -/
theorem mapExcept_ok_of_all (f : PackageInput → Except BatchError PackageSummary)
    (l : List PackageInput) (h : ∀ p ∈ l, isOkE (f p) = true) :
    ∃ out, mapExcept f l = .ok out ∧ out.length = l.length ∧
      ∀ i, out.get? i = (l.get? i).bind (fun p => (f p).toOption) := by
  induction l with
  | nil => exact ⟨[], rfl, rfl, fun i => by cases i <;> rfl⟩
  | cons p rest ih =>
    have hp := h p (List.Mem.head _)
    cases hf : f p with
    | error e => rw [hf] at hp; cases hp
    | ok s =>
      obtain ⟨out, ho, hl, hi⟩ := ih (fun q hq => h q (List.Mem.tail _ hq))
      refine ⟨s :: out, ?_, ?_, ?_⟩
      · simp only [mapExcept, hf, ho]
      · simp [hl]
      · intro i
        cases i with
        | zero => simp [hf, Except.toOption]
        | succ j => simpa using hi j

/-- A package whose search came back without an exact match is degraded to
an UNKNOWN verdict by its own step. -/
theorem processPackage_unknown (store : Option Backend) (llm : Report → LLMOutcome)
    (req : AnalysisRequest) (p : PackageInput)
    (hflag : (similarity_search store (searchQueryFor p) p.package p.version 100).2 = false)
    (s : PackageSummary)
    (h : processPackage store llm req p = .ok s) : s.status = "UNKNOWN" := by
  simp only [processPackage] at h
  cases hbr : build_report p.package p.version
      (similarity_search store (searchQueryFor p) p.package p.version 100).1
      (some (mergeRuntime req.runtime_defaults p.runtime_context))
      (similarity_search store (searchQueryFor p) p.package p.version 100).2 with
  | error e => rw [hbr] at h; cases h
  | ok report =>
    rw [hbr] at h
    injection h with h
    subst h
    rw [hflag] at hbr
    obtain ⟨rc, _, hs, _⟩ := build_report_fields hbr
    rw [classifyDocs_not_exact] at hs
    exact hs

/-- C8 (amended): if every processed package's own step succeeds (contained
search and narrative failures included), the batch returns one verdict per
processed package in input order, each determined by that package alone;
a search without an exact match degrades only that package's verdict to
UNKNOWN.  (An exception escaping a step aborts the whole batch — see the
counterexample.) -/
theorem C8_batch_amended (store : Option Backend) (llm : Report → LLMOutcome)
    (req : AnalysisRequest) (hne : req.packages ≠ [])
    (hall : ∀ p ∈ processedPackages req,
      isOkE (processPackage store llm req p) = true) :
    ∃ out, analyze_packages store llm req = .ok out ∧
      out.length = (processedPackages req).length ∧
      (∀ i, out.get? i = ((processedPackages req).get? i).bind
        (fun p => (processPackage store llm req p).toOption)) ∧
      (∀ p ∈ processedPackages req,
        (similarity_search store (searchQueryFor p) p.package p.version 100).2 = false →
        ∀ s, processPackage store llm req p = .ok s → s.status = "UNKNOWN") := by
  have hie : req.packages.isEmpty = false := by
    cases hp : req.packages with
    | nil => exact absurd hp hne
    | cons a l => rfl
  obtain ⟨out, ho, hl, hi⟩ :=
    mapExcept_ok_of_all (processPackage store llm req) (processedPackages req) hall
  refine ⟨out, ?_, hl, hi, ?_⟩
  · simp [analyze_packages, hie, ho]
  · intro p _ hflag s hs
    exact processPackage_unknown store llm req p hflag s hs

/-- Witness for C8 (amended) at the two-package batch with the backend
unavailable: the call succeeds with one verdict per package. -/
theorem C8_batch_amended_witness :
    isOkE (analyze_packages none (fun _ => .notLoaded) reqOk) = true ∧
    (analyze_packages none (fun _ => .notLoaded) reqOk).toOption.map List.length
      = some 2 := by
  obtain ⟨out, ho, hl, _, _⟩ :=
    C8_batch_amended none (fun _ => .notLoaded) reqOk (by decide) (by decide)
  rw [ho]
  refine ⟨rfl, ?_⟩
  simp only [Except.toOption, Option.map, hl]
  rfl

/-- Witness-style instantiation of C5 at a concrete document list with a
sentinel record, a missing id and a duplicate id: only the two usable ids
survive, first occurrences in order. -/
theorem C5_normalizer_dedup_witness :
    (format_docs [docCrit, docNA, docNoCve, docCrit, docHigh]).map VulnRecord.cve_id
      = ["CVE-2024-0001", "CVE-2024-0002"] ∧
    ((format_docs [docCrit, docNA, docNoCve, docCrit, docHigh]).map VulnRecord.cve_id).Nodup := by
  refine ⟨rfl, ?_⟩
  exact (C5_normalizer_dedup [docCrit, docNA, docNoCve, docCrit, docHigh]).2.1
